import Mathlib

/-!
Verification of the metrics/ranking engine of PS_Model_Comparator.

Shallow embedding of `src/app/metrics/text_analyze_metric.py` and of the
failure policy of `compute_itm_score` in `src/app/metrics/multimodal_metrics.py`.

Conventions of the embedding:
- Python `str` becomes `List Char`; `str.lower()` becomes `List.map Char.toLower`
  (ASCII-faithful, which covers every vocabulary word of the analyzer);
- Python `float` becomes `ℚ` (all constants in the source are decimal literals,
  so every reachable value is rational and the arithmetic is exact);
- Python `dict` (insertion-ordered, last write wins) becomes an association
  list with an insert that overwrites in place and appends fresh keys;
- `min`/`max` with a `key` function keep the first extremal element, exactly
  as CPython does; they are embedded by `argminBy`/`argmaxBy` below;
- code that raises (`ValueError` on an empty input list, `KeyError` on a
  missing dict key) returns `none`.
-/

namespace PSMC

/-- Python `s.split(sep)` for a one-character separator: splits at every
occurrence, keeping empty segments (`"a.b.".split(".") == ["a","b",""]`). -/
def splitBy (p : Char → Bool) : List Char → List (List Char)
  | [] => [[]]
  | c :: cs =>
    let rest := splitBy p cs
    if p c then [] :: rest
    else
      match rest with
      | [] => [[c]]
      | s :: ss => (c :: s) :: ss

/-- `response.split(".")` from `analyze_content_quality`. -/
def splitOnDot (s : List Char) : List (List Char) :=
  splitBy (fun c => c = '.') s

/-- Python `s.split()` (no argument): split on whitespace runs, dropping
empty segments. -/
def pyWords (s : List Char) : List (List Char) :=
  (splitBy Char.isWhitespace s).filter (fun w => !w.isEmpty)

/-- Python substring containment `needle in haystack`. -/
def containsSub (needle : List Char) : List Char → Bool
  | [] => needle.isEmpty
  | c :: cs => needle.isPrefixOf (c :: cs) || containsSub needle cs

/-- Python truthiness of `s.strip()`: the segment holds a non-whitespace char. -/
def strippedNonEmpty (s : List Char) : Bool :=
  s.any (fun c => !c.isWhitespace)

/-- `self.color_keywords` from `ModelMetricsAnalyzer.__init__`. -/
def color_keywords : List (List Char) :=
  ["red", "blue", "green", "yellow", "black", "white"].map String.data

/-- `self.object_keywords` from `ModelMetricsAnalyzer.__init__`. -/
def object_keywords : List (List Char) :=
  ["dog", "cat", "car", "tree", "person", "sign"].map String.data

/-- `self.people_keywords` from `ModelMetricsAnalyzer.__init__`. -/
def people_keywords : List (List Char) :=
  ["person", "people", "man", "woman", "child", "boy", "girl", "human"].map String.data

/-- `self.action_keywords` from `ModelMetricsAnalyzer.__init__`. -/
def action_keywords : List (List Char) :=
  ["running", "walking", "sitting", "standing", "jumping", "playing",
   "eating", "drinking"].map String.data

/-- `self.text_keywords` from `ModelMetricsAnalyzer.__init__`. -/
def text_keywords : List (List Char) :=
  ["text", "letter", "word"].map String.data

/-- `self.english_indicators` from `ModelMetricsAnalyzer.__init__`. -/
def english_indicators : List (List Char) :=
  ["the", "and", "is", "in", "it", "you", "that", "he", "was", "for",
   "on", "are", "with", "as", "his", "they", "be", "at", "one", "have",
   "this", "from", "or", "had", "by", "hot", "but", "some", "what", "there",
   "we", "can", "out", "other", "were", "all", "your", "when", "up", "use",
   "word", "how", "said", "each", "which", "she", "do", "their", "time", "if",
   "will", "way", "about", "many", "then", "them", "would", "write", "like", "so",
   "these", "her", "long", "make", "thing", "see", "him", "two", "has", "look",
   "more", "day", "could", "go", "come", "did", "my", "sound", "no", "most",
   "number", "who", "over", "know", "water", "than", "call", "first", "may", "down",
   "side", "been", "now", "find"].map String.data

/-- The refusal marker checked by `well_structured` (`response.startswith("Sorry")`). -/
def refusalMarker : List Char := "Sorry".data

/-- `ModelResponse` (src/app/models.py), the per-model result record. -/
structure ModelResponse where
  model_name : String
  provider : String
  response : List Char
  execution_time : ℚ
  success : Bool
  error : Option String
deriving DecidableEq

/-- The dictionary returned by `analyze_content_quality`. -/
structure ContentMetrics where
  response_length : ℕ
  word_count : ℕ
  sentence_count : ℕ
  mentions_colors : Bool
  mentions_objects : Bool
  mentions_people : Bool
  mentions_text : Bool
  mentions_actions : Bool
  uses_english : Bool
  has_detailed_description : Bool
  well_structured : Bool
  has_specific_details : Bool
deriving DecidableEq

/-- `ModelMetricsAnalyzer.analyze_content_quality` (text_analyze_metric.py,
lines 267-294). -/
def analyze_content_quality (response : List Char) : ContentMetrics :=
  let response_lower := response.map Char.toLower
  let words := pyWords response_lower
  let sentences := splitOnDot response
  { response_length := response.length
    word_count := words.length
    sentence_count := (sentences.filter strippedNonEmpty).length
    mentions_colors := color_keywords.any (fun c => containsSub c response_lower)
    mentions_objects := object_keywords.any (fun o => containsSub o response_lower)
    mentions_people := people_keywords.any (fun p => containsSub p response_lower)
    mentions_text := text_keywords.any (fun t => containsSub t response_lower)
    mentions_actions := action_keywords.any (fun a => containsSub a response_lower)
    uses_english := 3 < english_indicators.countP (fun w => containsSub w response_lower)
    has_detailed_description := 20 < words.length
    well_structured := decide (2 < sentences.length) && !(refusalMarker.isPrefixOf response)
    has_specific_details :=
      (color_keywords ++ object_keywords ++ people_keywords).any
        (fun kw => containsSub kw response_lower) }

/-- `content_variety` from `calculate_quality_score`: the number of true
mention-category booleans. -/
def content_variety (cm : ContentMetrics) : ℕ :=
  (if cm.mentions_colors then 1 else 0) + (if cm.mentions_objects then 1 else 0)
  + (if cm.mentions_people then 1 else 0) + (if cm.mentions_text then 1 else 0)
  + (if cm.mentions_actions then 1 else 0)

/-- The text part of `calculate_quality_score` (the local variable `score`
accumulated on lines 300-329 of text_analyze_metric.py). -/
def text_score (cm : ContentMetrics) : ℚ :=
  (if 20 ≤ cm.word_count ∧ cm.word_count ≤ 200 then 2
   else if 10 ≤ cm.word_count ∧ cm.word_count < 20 then 1
   else if 200 < cm.word_count then 3/2
   else 0)
  + (if cm.has_detailed_description then 2 else 0)
  + (if cm.well_structured then 2 else 0)
  + (if cm.uses_english then 3/2 else 0)
  + (if cm.has_specific_details then 3/2 else 0)
  + (content_variety cm : ℚ) * (1/2)

/-- Python builtin `min(a, b)` on two numbers. -/
def pymin (a b : ℚ) : ℚ :=
  if a ≤ b then a else b

/-- `ModelMetricsAnalyzer.calculate_quality_score` (lines 296-337):
`min(score * 0.7 + (itm_score * 10.0) * 0.3, 10.0)`. -/
def calculate_quality_score (cm : ContentMetrics) (itm_score : ℚ) : ℚ :=
  pymin (text_score cm * (7/10) + (itm_score * 10) * (3/10)) 10

/-- `ModelMetricsAnalyzer.calculate_performance_score` (lines 397-419). -/
def calculate_performance_score (execution_time : ℚ) (success : Bool) : ℚ :=
  if success = false then 0
  else if execution_time ≤ 3 then 10
  else if execution_time ≤ 5 then 19/2
  else if execution_time ≤ 10 then 9
  else if execution_time ≤ 15 then 8
  else if execution_time ≤ 30 then 7
  else if execution_time ≤ 60 then 5
  else if execution_time ≤ 120 then 3
  else 1

/-- `ModelMetrics` dataclass (text_analyze_metric.py, lines 6-40). -/
structure ModelMetrics where
  model_name : String
  provider : String
  execution_time : ℚ
  success_rate : ℚ
  response_length : ℕ
  word_count : ℕ
  sentence_count : ℕ
  has_detailed_description : Bool
  mentions_colors : Bool
  mentions_objects : Bool
  mentions_people : Bool
  mentions_text : Bool
  mentions_actions : Bool
  uses_english : Bool
  well_structured : Bool
  has_specific_details : Bool
  itm_score : ℚ
  quality_score : ℚ
  overall_score : ℚ
deriving DecidableEq

/-- `ModelMetricsAnalyzer.analyze_model_response` (lines 205-265). -/
def analyze_model_response (response : ModelResponse) (itm_score : ℚ) : ModelMetrics :=
  if response.success = false then
    { model_name := response.model_name
      provider := response.provider
      execution_time := response.execution_time
      success_rate := 0
      response_length := 0
      word_count := 0
      sentence_count := 0
      has_detailed_description := false
      mentions_colors := false
      mentions_objects := false
      mentions_people := false
      mentions_text := false
      mentions_actions := false
      uses_english := false
      well_structured := false
      has_specific_details := false
      itm_score := itm_score
      quality_score := 0
      overall_score := 0 }
  else
    let cm := analyze_content_quality response.response
    let quality_score := calculate_quality_score cm itm_score
    let performance_score :=
      calculate_performance_score response.execution_time response.success
    let overall_score :=
      if response.execution_time < 10 then
        quality_score * (1/2) + performance_score * (1/2)
      else if 60 < response.execution_time then
        quality_score * (7/10) + performance_score * (3/10)
      else
        quality_score * (3/5) + performance_score * (2/5)
    { model_name := response.model_name
      provider := response.provider
      execution_time := response.execution_time
      success_rate := if response.success then 1 else 0
      response_length := cm.response_length
      word_count := cm.word_count
      sentence_count := cm.sentence_count
      has_detailed_description := cm.has_detailed_description
      mentions_colors := cm.mentions_colors
      mentions_objects := cm.mentions_objects
      mentions_people := cm.mentions_people
      mentions_text := cm.mentions_text
      mentions_actions := cm.mentions_actions
      uses_english := cm.uses_english
      well_structured := cm.well_structured
      has_specific_details := cm.has_specific_details
      itm_score := itm_score
      quality_score := quality_score
      overall_score := overall_score }

/-- `ComparisonMetrics` dataclass (lines 43-53). The Python dict
`metrics_by_model` is embedded as an insertion-ordered association list. -/
structure ComparisonMetrics where
  total_models : ℕ
  fastest_model : String
  slowest_model : String
  most_detailed_model : String
  highest_quality_model : String
  winner : String
  metrics_by_model : List (String × ModelMetrics)
deriving DecidableEq

/-- Python `itm_scores.get(model_name, 0.0)`. -/
def dictGet (m : List (String × ℚ)) (k : String) : ℚ :=
  match m.find? (fun p => p.1 = k) with
  | some p => p.2
  | none => 0

/-- Python `d[k] = v` on an insertion-ordered dict: overwrite in place if the
key exists, else append. -/
def insertMM (m : List (String × ModelMetrics)) (k : String) (v : ModelMetrics) :
    List (String × ModelMetrics) :=
  match m with
  | [] => [(k, v)]
  | p :: rest => if p.1 = k then (k, v) :: rest else p :: insertMM rest k v

/-- The `model_metrics` dict built by the loop on lines 347-351. -/
def modelMetricsList (responses : List ModelResponse) (itm_scores : List (String × ℚ)) :
    List (String × ModelMetrics) :=
  responses.foldl
    (fun acc r => insertMM acc r.model_name
      (analyze_model_response r (dictGet itm_scores r.model_name)))
    []

/-- `model_metrics.values()` in insertion order. -/
def allMetrics (responses : List ModelResponse) (itm_scores : List (String × ℚ)) :
    List ModelMetrics :=
  (modelMetricsList responses itm_scores).map Prod.snd

/-- `successful_metrics = [m for m in model_metrics.values() if m.success_rate > 0]`
(line 354). -/
def successfulMetrics (responses : List ModelResponse) (itm_scores : List (String × ℚ)) :
    List ModelMetrics :=
  (allMetrics responses itm_scores).filter (fun m => 0 < m.success_rate)

/-- CPython `min(iterable, key)`: keeps the first minimal element. -/
def argminBy {α β : Type} [LinearOrder β] (key : α → β) (x : α) (xs : List α) : α :=
  xs.foldl (fun best y => if key y < key best then y else best) x

/-- CPython `max(iterable, key)`: keeps the first maximal element. -/
def argmaxBy {α β : Type} [LinearOrder β] (key : α → β) (x : α) (xs : List α) : α :=
  xs.foldl (fun best y => if key best < key y then y else best) x

/-- `min(metrics_list, key=lambda x: ...).model_name`. The `[]` branch is
unreachable in `compare_models_with_itm` (Python `min` would raise there). -/
def minNameBy {β : Type} [LinearOrder β] (key : ModelMetrics → β) :
    List ModelMetrics → String
  | [] => ""
  | x :: xs => (argminBy key x xs).model_name

/-- `max(metrics_list, key=lambda x: ...).model_name`. The `[]` branch is
unreachable in `compare_models_with_itm` (Python `max` would raise there). -/
def maxNameBy {β : Type} [LinearOrder β] (key : ModelMetrics → β) :
    List ModelMetrics → String
  | [] => ""
  | x :: xs => (argmaxBy key x xs).model_name

/-- `ModelMetricsAnalyzer.compare_models_with_itm` (lines 339-395). The
`ValueError` raised on an empty response list becomes `none`. The Python
locals `model_metrics` and `successful_metrics` are the definitions
`modelMetricsList` and `successfulMetrics` above. -/
def compare_models_with_itm (responses : List ModelResponse)
    (itm_scores : List (String × ℚ)) : Option ComparisonMetrics :=
  if responses.isEmpty then none
  else if (successfulMetrics responses itm_scores).isEmpty then
    some { total_models := responses.length
           fastest_model := minNameBy (fun x => x.execution_time) (allMetrics responses itm_scores)
           slowest_model := maxNameBy (fun x => x.execution_time) (allMetrics responses itm_scores)
           most_detailed_model := "N/A"
           highest_quality_model := "N/A"
           winner := "N/A - Ningún modelo tuvo éxito"
           metrics_by_model := modelMetricsList responses itm_scores }
  else
    some { total_models := responses.length
           fastest_model := minNameBy (fun x => x.execution_time) (successfulMetrics responses itm_scores)
           slowest_model := maxNameBy (fun x => x.execution_time) (allMetrics responses itm_scores)
           most_detailed_model := maxNameBy (fun x => x.word_count) (successfulMetrics responses itm_scores)
           highest_quality_model := maxNameBy (fun x => x.quality_score) (successfulMetrics responses itm_scores)
           winner := maxNameBy (fun x => x.overall_score) (successfulMetrics responses itm_scores)
           metrics_by_model := modelMetricsList responses itm_scores }

/-- `ModelMetricsAnalyzer.get_recommendation` (lines 421-432). The Python
`comparison.metrics_by_model[comparison.winner]` raises `KeyError` when the
winner is not a key; that becomes `none`. -/
def get_recommendation (comparison : ComparisonMetrics) : Option String :=
  match comparison.metrics_by_model.find? (fun p => p.1 = comparison.winner) with
  | none => none
  | some p =>
    some
      (if p.2.overall_score < 3 then
        "⚠️ Ningún modelo mostró un rendimiento satisfactorio. Considera revisar la imagen o los modelos."
      else if p.2.overall_score < 6 then
        "🥉 " ++ comparison.winner ++ " fue el mejor, pero con rendimiento moderado. Hay margen de mejora."
      else if p.2.overall_score < 8 then
        "🥈 " ++ comparison.winner ++ " mostró un buen rendimiento general. Resultados satisfactorios."
      else
        "🥇 " ++ comparison.winner ++ " mostró un excelente rendimiento. Resultados de alta calidad.")

/-- The possible outcomes of the BLIP scoring body in
`MultimodalMetricsAnalyzer.compute_itm_score` (multimodal_metrics.py,
lines 148-222). The torch/BLIP call is external and effectful, so the body of
the `try` block is abstracted into the outcome it produces: one of the
`hasattr` branches yielding a match probability, the "no recognized attribute"
fallthrough, or an exception. -/
inductive BlipOutcome where
  | itm_result (match_prob : ℚ)
  | no_score
  | raises
deriving DecidableEq

/-- `MultimodalMetricsAnalyzer.compute_itm_score` (lines 148-222), with the
loaded-model state (`self.blip_model`/`self.blip_processor` truthiness) and
the scoring outcome made explicit. -/
def compute_itm_score (blip_model_loaded blip_processor_loaded : Bool)
    (outcome : BlipOutcome) : ℚ :=
  if blip_model_loaded = false ∨ blip_processor_loaded = false then 1/2
  else
    match outcome with
    | BlipOutcome.itm_result p => p
    | BlipOutcome.no_score => 1/2
    | BlipOutcome.raises => 0

/-! ### Lemmas about the CPython `min`/`max` embedding -/

theorem pymin_eq_min (a b : ℚ) : pymin a b = min a b := by
  rw [pymin, min_def]

theorem argminBy_cons {α β : Type} [LinearOrder β] (key : α → β) (x y : α) (ys : List α) :
    argminBy key x (y :: ys) = argminBy key (if key y < key x then y else x) ys := rfl

theorem argmaxBy_cons {α β : Type} [LinearOrder β] (key : α → β) (x y : α) (ys : List α) :
    argmaxBy key x (y :: ys) = argmaxBy key (if key x < key y then y else x) ys := rfl

theorem argminBy_mem {α β : Type} [LinearOrder β] (key : α → β) (x : α) (xs : List α) :
    argminBy key x xs ∈ x :: xs := by
  induction xs generalizing x with
  | nil => simp [argminBy]
  | cons y ys ih =>
    rw [argminBy_cons]
    rcases List.mem_cons.mp (ih (if key y < key x then y else x)) with h1 | h1
    · rw [h1]
      split_ifs <;> simp
    · simp [List.mem_cons, h1]

theorem argmaxBy_mem {α β : Type} [LinearOrder β] (key : α → β) (x : α) (xs : List α) :
    argmaxBy key x xs ∈ x :: xs := by
  induction xs generalizing x with
  | nil => simp [argmaxBy]
  | cons y ys ih =>
    rw [argmaxBy_cons]
    rcases List.mem_cons.mp (ih (if key x < key y then y else x)) with h1 | h1
    · rw [h1]
      split_ifs <;> simp
    · simp [List.mem_cons, h1]

theorem argminBy_le {α β : Type} [LinearOrder β] (key : α → β) (x : α) (xs : List α) :
    ∀ y ∈ x :: xs, key (argminBy key x xs) ≤ key y := by
  induction xs generalizing x with
  | nil =>
    intro y hy
    rw [List.mem_singleton] at hy
    subst hy
    exact le_refl _
  | cons z zs ih =>
    intro y hy
    rw [argminBy_cons]
    have hb1 : key (if key z < key x then z else x) ≤ key x := by
      split_ifs with h
      · exact le_of_lt h
      · exact le_refl _
    have hb2 : key (if key z < key x then z else x) ≤ key z := by
      split_ifs with h
      · exact le_refl _
      · exact le_of_not_lt h
    have hself := ih (if key z < key x then z else x)
      (if key z < key x then z else x) (List.mem_cons_self _ _)
    rcases List.mem_cons.mp hy with rfl | hy2
    · exact le_trans hself hb1
    rcases List.mem_cons.mp hy2 with rfl | hy3
    · exact le_trans hself hb2
    · exact ih (if key z < key x then z else x) y (List.mem_cons_of_mem _ hy3)

theorem argmaxBy_ge {α β : Type} [LinearOrder β] (key : α → β) (x : α) (xs : List α) :
    ∀ y ∈ x :: xs, key y ≤ key (argmaxBy key x xs) := by
  induction xs generalizing x with
  | nil =>
    intro y hy
    rw [List.mem_singleton] at hy
    subst hy
    exact le_refl _
  | cons z zs ih =>
    intro y hy
    rw [argmaxBy_cons]
    have hb1 : key x ≤ key (if key x < key z then z else x) := by
      split_ifs with h
      · exact le_of_lt h
      · exact le_refl _
    have hb2 : key z ≤ key (if key x < key z then z else x) := by
      split_ifs with h
      · exact le_refl _
      · exact le_of_not_lt h
    have hself := ih (if key x < key z then z else x)
      (if key x < key z then z else x) (List.mem_cons_self _ _)
    rcases List.mem_cons.mp hy with rfl | hy2
    · exact le_trans hb1 hself
    rcases List.mem_cons.mp hy2 with rfl | hy3
    · exact le_trans hb2 hself
    · exact ih (if key x < key z then z else x) y (List.mem_cons_of_mem _ hy3)

theorem argmaxBy_of_all_le {α β : Type} [LinearOrder β] (key : α → β) (x : α)
    (xs : List α) (h : ∀ y ∈ xs, key y ≤ key x) : argmaxBy key x xs = x := by
  induction xs generalizing x with
  | nil => rfl
  | cons z zs ih =>
    rw [argmaxBy_cons]
    have hz : ¬ key x < key z := not_lt_of_le (h z (List.mem_cons_self _ _))
    rw [if_neg hz]
    exact ih x (fun y hy => h y (List.mem_cons_of_mem _ hy))

theorem argmaxBy_append_first {α β : Type} [LinearOrder β] (key : α → β) (m : α)
    (l₁ : List α) : ∀ (x : α) (l₂ : List α), key x < key m →
    (∀ y ∈ l₁, key y < key m) → (∀ y ∈ l₂, key y ≤ key m) →
    argmaxBy key x (l₁ ++ m :: l₂) = m := by
  induction l₁ with
  | nil =>
    intro x l₂ hx hl₁ hl₂
    rw [List.nil_append, argmaxBy_cons, if_pos hx]
    exact argmaxBy_of_all_le key m l₂ hl₂
  | cons a l₁ ih =>
    intro x l₂ hx hl₁ hl₂
    rw [List.cons_append, argmaxBy_cons]
    have ha : key a < key m := hl₁ a (List.mem_cons_self _ _)
    have hb : key (if key x < key a then a else x) < key m := by
      split_ifs
      · exact ha
      · exact hx
    exact ih (if key x < key a then a else x) l₂ hb
      (fun y hy => hl₁ y (List.mem_cons_of_mem _ hy)) hl₂

/-- CPython `max(l, key)` returns the first element attaining the maximum:
if `m` is maximal and everything strictly before `m` in the list is strictly
smaller, `max` returns `m`. -/
theorem argmaxBy_first {α β : Type} [LinearOrder β] (key : α → β) (x : α)
    (xs l₁ l₂ : List α) (m : α) (hsplit : x :: xs = l₁ ++ m :: l₂)
    (hmax : ∀ y ∈ x :: xs, key y ≤ key m) (hbefore : ∀ y ∈ l₁, key y < key m) :
    argmaxBy key x xs = m := by
  cases l₁ with
  | nil =>
    rw [List.nil_append] at hsplit
    injection hsplit with h1 h2
    subst h1
    subst h2
    exact argmaxBy_of_all_le key x xs
      (fun y hy => hmax y (List.mem_cons_of_mem _ hy))
  | cons a l₁ =>
    rw [List.cons_append] at hsplit
    injection hsplit with h1 h2
    subst h1
    subst h2
    exact argmaxBy_append_first key m l₁ x l₂
      (hbefore x (List.mem_cons_self _ _))
      (fun y hy => hbefore y (List.mem_cons_of_mem _ hy))
      (fun y hy => hmax y
        (List.mem_cons_of_mem _ (List.mem_append_right l₁ (List.mem_cons_of_mem _ hy))))

/-! ### Lemmas about the insertion-ordered dict embedding -/

theorem insertMM_of_not_key (m : List (String × ModelMetrics)) (k : String)
    (v : ModelMetrics) (h : ∀ p ∈ m, p.1 ≠ k) : insertMM m k v = m ++ [(k, v)] := by
  induction m with
  | nil => rfl
  | cons p rest ih =>
    rw [insertMM, if_neg (h p (List.mem_cons_self _ _)), List.cons_append]
    rw [ih (fun q hq => h q (List.mem_cons_of_mem _ hq))]

theorem mem_insertMM (m : List (String × ModelMetrics)) (k : String)
    (v : ModelMetrics) (p : String × ModelMetrics) (hp : p ∈ insertMM m k v) :
    p ∈ m ∨ p = (k, v) := by
  induction m with
  | nil =>
    rw [insertMM, List.mem_singleton] at hp
    exact Or.inr hp
  | cons q rest ih =>
    rw [insertMM] at hp
    split_ifs at hp with hq
    · rcases List.mem_cons.mp hp with h1 | h1
      · exact Or.inr h1
      · exact Or.inl (List.mem_cons_of_mem _ h1)
    · rcases List.mem_cons.mp hp with h1 | h1
      · exact Or.inl (h1 ▸ List.mem_cons_self _ _)
      · rcases ih h1 with h2 | h2
        · exact Or.inl (List.mem_cons_of_mem _ h2)
        · exact Or.inr h2

/-- The per-response entry the `model_metrics` loop inserts. -/
def metricsEntry (itm_scores : List (String × ℚ)) (r : ModelResponse) :
    String × ModelMetrics :=
  (r.model_name, analyze_model_response r (dictGet itm_scores r.model_name))

theorem foldl_insert_eq (itm_scores : List (String × ℚ)) (rs : List ModelResponse) :
    ∀ acc : List (String × ModelMetrics),
    (∀ r ∈ rs, ∀ p ∈ acc, p.1 ≠ r.model_name) →
    (rs.map ModelResponse.model_name).Nodup →
    rs.foldl (fun acc r => insertMM acc r.model_name
      (analyze_model_response r (dictGet itm_scores r.model_name))) acc
      = acc ++ rs.map (metricsEntry itm_scores) := by
  induction rs with
  | nil =>
    intro acc _ _
    simp
  | cons r rs ih =>
    intro acc hdisj hnd
    rw [List.foldl_cons]
    rw [insertMM_of_not_key acc r.model_name _
      (fun p hp => hdisj r (List.mem_cons_self _ _) p hp)]
    rw [List.map_cons] at hnd
    have hnd2 := (List.nodup_cons.mp hnd).2
    have hhead := (List.nodup_cons.mp hnd).1
    have hentry : (r.model_name, analyze_model_response r (dictGet itm_scores r.model_name))
        = metricsEntry itm_scores r := rfl
    rw [hentry]
    rw [ih (acc ++ [metricsEntry itm_scores r]) ?_ hnd2]
    · rw [List.append_assoc, List.singleton_append, List.map_cons]
    · intro r2 hr2 p hp
      rcases List.mem_append.mp hp with h1 | h1
      · exact hdisj r2 (List.mem_cons_of_mem _ hr2) p h1
      · rw [List.mem_singleton] at h1
        subst h1
        intro hc
        have hc2 : r.model_name = r2.model_name := hc
        exact hhead (by rw [hc2]; exact List.mem_map_of_mem ModelResponse.model_name hr2)

theorem modelMetricsList_eq_map (responses : List ModelResponse)
    (itm_scores : List (String × ℚ))
    (hnd : (responses.map ModelResponse.model_name).Nodup) :
    modelMetricsList responses itm_scores = responses.map (metricsEntry itm_scores) := by
  rw [modelMetricsList, foldl_insert_eq itm_scores responses [] (by simp) hnd,
    List.nil_append]

theorem mem_foldl_insert (itm_scores : List (String × ℚ)) (rs : List ModelResponse) :
    ∀ (acc : List (String × ModelMetrics)) (p : String × ModelMetrics),
    p ∈ rs.foldl (fun acc r => insertMM acc r.model_name
      (analyze_model_response r (dictGet itm_scores r.model_name))) acc →
    p ∈ acc ∨ ∃ r ∈ rs, p = metricsEntry itm_scores r := by
  induction rs with
  | nil =>
    intro acc p hp
    exact Or.inl hp
  | cons r rs ih =>
    intro acc p hp
    rw [List.foldl_cons] at hp
    rcases ih _ p hp with h1 | h1
    · rcases mem_insertMM _ _ _ p h1 with h2 | h2
      · exact Or.inl h2
      · exact Or.inr ⟨r, List.mem_cons_self _ _, h2⟩
    · obtain ⟨r2, hr2, he⟩ := h1
      exact Or.inr ⟨r2, List.mem_cons_of_mem _ hr2, he⟩

theorem mem_modelMetricsList (responses : List ModelResponse)
    (itm_scores : List (String × ℚ)) (p : String × ModelMetrics)
    (hp : p ∈ modelMetricsList responses itm_scores) :
    ∃ r ∈ responses, p = metricsEntry itm_scores r := by
  rcases mem_foldl_insert itm_scores responses [] p hp with h1 | h1
  · exact absurd h1 (List.not_mem_nil p)
  · exact h1

theorem analyze_model_response_success_rate_of_failure (r : ModelResponse) (q : ℚ)
    (h : r.success = false) : (analyze_model_response r q).success_rate = 0 := by
  rw [analyze_model_response, if_pos h]

theorem analyze_model_response_success_rate_of_success (r : ModelResponse) (q : ℚ)
    (h : r.success = true) : (analyze_model_response r q).success_rate = 1 := by
  rw [analyze_model_response, if_neg (by simp [h])]
  simp only [h, if_true]

theorem successfulMetrics_eq_nil (responses : List ModelResponse)
    (itm_scores : List (String × ℚ)) (hfail : ∀ r ∈ responses, r.success = false) :
    successfulMetrics responses itm_scores = [] := by
  rw [successfulMetrics, List.filter_eq_nil_iff]
  intro m hm
  rw [allMetrics] at hm
  obtain ⟨p, hp, hpm⟩ := List.mem_map.mp hm
  obtain ⟨r, hr, he⟩ := mem_modelMetricsList responses itm_scores p hp
  have hm0 : m.success_rate = 0 := by
    rw [← hpm, he, metricsEntry]
    exact analyze_model_response_success_rate_of_failure r _ (hfail r hr)
  simp [hm0]

theorem compare_of_no_success (responses : List ModelResponse)
    (itm_scores : List (String × ℚ)) (x : ModelResponse) (xs : List ModelResponse)
    (hx : responses = x :: xs) (hfail : ∀ r ∈ responses, r.success = false) :
    compare_models_with_itm responses itm_scores = some
      { total_models := responses.length
        fastest_model := minNameBy (fun m => m.execution_time) (allMetrics responses itm_scores)
        slowest_model := maxNameBy (fun m => m.execution_time) (allMetrics responses itm_scores)
        most_detailed_model := "N/A"
        highest_quality_model := "N/A"
        winner := "N/A - Ningún modelo tuvo éxito"
        metrics_by_model := modelMetricsList responses itm_scores } := by
  rw [compare_models_with_itm, if_neg (by rw [hx]; simp),
    if_pos (by rw [successfulMetrics_eq_nil responses itm_scores hfail]; rfl)]

/-- C6: on a non-empty result list with no success, the aggregator returns a
report (raises nothing) whose winner is the no-success sentinel and whose
detail/quality winners are the not-applicable sentinel. -/
theorem C6_no_success_sentinels (responses : List ModelResponse)
    (itm_scores : List (String × ℚ)) (hne : responses ≠ [])
    (hfail : ∀ r ∈ responses, r.success = false) :
    ∃ c, compare_models_with_itm responses itm_scores = some c ∧
      c.winner = "N/A - Ningún modelo tuvo éxito" ∧
      c.most_detailed_model = "N/A" ∧ c.highest_quality_model = "N/A" := by
  obtain ⟨x, xs, hx⟩ := List.exists_cons_of_ne_nil hne
  exact ⟨_, compare_of_no_success responses itm_scores x xs hx hfail, rfl, rfl, rfl⟩

/-- A concrete failed result whose stale response text is full of keywords. -/
def sampleFailed : ModelResponse :=
  { model_name := "llava", provider := "ollama",
    response := "The red dog is running. A man walks. Text on a sign.".data,
    execution_time := 2, success := false, error := some "timeout" }

/-- Witness for C6 at a concrete one-failure input. -/
theorem C6_no_success_sentinels_witness :
    (([sampleFailed] ≠ []) ∧ (∀ r ∈ [sampleFailed], r.success = false)) ∧
    (∃ c, compare_models_with_itm [sampleFailed] [("llava", 9/10)] = some c ∧
      c.winner = "N/A - Ningún modelo tuvo éxito" ∧
      c.most_detailed_model = "N/A" ∧ c.highest_quality_model = "N/A") :=
  ⟨⟨by simp, by decide⟩,
    C6_no_success_sentinels _ [("llava", 9/10)] (by simp) (by decide)⟩

/-- C10: producing a report from a no-success result list and then asking for
a recommendation dereferences the sentinel winner, which is not a key of
`metrics_by_model`; the Python `KeyError` is the `none` of the embedding. -/
theorem C10_recommendation_keyerror (responses : List ModelResponse)
    (itm_scores : List (String × ℚ)) (hne : responses ≠ [])
    (hfail : ∀ r ∈ responses, r.success = false)
    (hname : ∀ r ∈ responses, r.model_name ≠ "N/A - Ningún modelo tuvo éxito") :
    ∃ c, compare_models_with_itm responses itm_scores = some c ∧
      get_recommendation c = none := by
  obtain ⟨x, xs, hx⟩ := List.exists_cons_of_ne_nil hne
  refine ⟨_, compare_of_no_success responses itm_scores x xs hx hfail, ?_⟩
  rw [get_recommendation]
  have hfind : (modelMetricsList responses itm_scores).find?
      (fun p => p.1 = "N/A - Ningún modelo tuvo éxito") = none := by
    rw [List.find?_eq_none]
    intro p hp
    obtain ⟨r, hr, he⟩ := mem_modelMetricsList responses itm_scores p hp
    have h1 : p.1 = r.model_name := by rw [he]; rfl
    simp [h1, hname r hr]
  simp only [hfind]

/-- Witness for C10 at a concrete one-failure input. -/
theorem C10_recommendation_keyerror_witness :
    (([sampleFailed] ≠ []) ∧ (∀ r ∈ [sampleFailed], r.success = false) ∧
      (∀ r ∈ [sampleFailed], r.model_name ≠ "N/A - Ningún modelo tuvo éxito")) ∧
    (∃ c, compare_models_with_itm [sampleFailed] [] = some c ∧
      get_recommendation c = none) :=
  ⟨⟨by simp, by decide, by decide⟩,
    C10_recommendation_keyerror _ [] (by simp) (by decide) (by decide)⟩

/-- C3: a failed result is mapped, regardless of its response text, to
metrics with every content signal false, every count zero, zero quality and
overall scores, and the itm score looked up from the input map; a name absent
from the map defaults to 0. -/
theorem C3_failure_zeroed (r : ModelResponse) (itm_scores : List (String × ℚ))
    (h : r.success = false) :
    analyze_model_response r (dictGet itm_scores r.model_name) =
      { model_name := r.model_name
        provider := r.provider
        execution_time := r.execution_time
        success_rate := 0
        response_length := 0
        word_count := 0
        sentence_count := 0
        has_detailed_description := false
        mentions_colors := false
        mentions_objects := false
        mentions_people := false
        mentions_text := false
        mentions_actions := false
        uses_english := false
        well_structured := false
        has_specific_details := false
        itm_score := dictGet itm_scores r.model_name
        quality_score := 0
        overall_score := 0 } ∧
    (r.model_name ∉ itm_scores.map Prod.fst →
      dictGet itm_scores r.model_name = 0) := by
  constructor
  · rw [analyze_model_response, if_pos h]
  · intro habs
    rw [dictGet]
    have hfind : itm_scores.find? (fun p => p.1 = r.model_name) = none := by
      rw [List.find?_eq_none]
      intro p hp
      simp only [decide_eq_true_eq]
      intro hc
      exact habs (hc ▸ List.mem_map_of_mem Prod.fst hp)
    rw [hfind]

/-- Witness for C3: a failed result whose stale response text is full of
keywords, with a name absent from the itm map. -/
theorem C3_failure_zeroed_witness :
    (({ model_name := "gemini", provider := "gemini",
        response := "The red dog is running. A man walks. Text on a sign.".data,
        execution_time := 7, success := false, error := some "quota" } :
        ModelResponse).success = false) ∧
    (analyze_model_response
        { model_name := "gemini", provider := "gemini",
          response := "The red dog is running. A man walks. Text on a sign.".data,
          execution_time := 7, success := false, error := some "quota" }
        (dictGet [("llava", 3/4)] "gemini") =
      { model_name := "gemini"
        provider := "gemini"
        execution_time := 7
        success_rate := 0
        response_length := 0
        word_count := 0
        sentence_count := 0
        has_detailed_description := false
        mentions_colors := false
        mentions_objects := false
        mentions_people := false
        mentions_text := false
        mentions_actions := false
        uses_english := false
        well_structured := false
        has_specific_details := false
        itm_score := dictGet [("llava", 3/4)] "gemini"
        quality_score := 0
        overall_score := 0 } ∧
      ("gemini" ∉ ([("llava", (3:ℚ)/4)].map Prod.fst) →
        dictGet [("llava", 3/4)] "gemini" = 0)) :=
  ⟨rfl, C3_failure_zeroed _ [("llava", 3/4)] rfl⟩

/-- C9: the ITM scorer's failure policy is asymmetric: a capability-check
failure (BLIP model or processor unavailable) yields the neutral 0.5, while
an exception thrown during scoring itself yields 0.0. -/
theorem C9_asymmetric_failure_policy (m p : Bool) (o : BlipOutcome)
    (hcap : m = false ∨ p = false) :
    compute_itm_score m p o = 1/2 ∧
    compute_itm_score true true BlipOutcome.raises = 0 := by
  constructor
  · rw [compute_itm_score.eq_def, if_pos hcap]
  · rfl

/-- Witness for C9: scorer unavailable on one side, and the throw case. -/
theorem C9_asymmetric_failure_policy_witness :
    ((false = false ∨ true = false) ∧
      (compute_itm_score false true (BlipOutcome.itm_result (9/10)) = 1/2 ∧
        compute_itm_score true true BlipOutcome.raises = 0)) :=
  ⟨Or.inl rfl,
    C9_asymmetric_failure_policy false true (BlipOutcome.itm_result (9/10)) (Or.inl rfl)⟩

/-! ### C2: the well_structured signal -/

/-- Modelled from the spec's words, for comparison with the source behavior:
well_structured as "more than 2 NON-EMPTY period-delimited segments and no
leading refusal marker". -/
def well_structured_claimed (response : List Char) : Bool :=
  decide (2 < ((splitOnDot response).filter (fun s => !s.isEmpty)).length)
    && !(refusalMarker.isPrefixOf response)

/-- Counterexample to C2: on "a.b." the analyzer reports well_structured
(the raw "."-split has 3 segments, the trailing one empty), while the claimed
non-empty-segment reading yields only 2 segments and so predicts false. -/
theorem C2_well_structured_counterexample :
    (analyze_content_quality ("a.b.").data).well_structured = true ∧
    well_structured_claimed ("a.b.").data = false ∧
    ((splitOnDot ("a.b.").data).filter (fun s => !s.isEmpty)).length = 2 := by
  refine ⟨?_, ?_, ?_⟩ <;> decide

theorem splitBy_ne_nil (p : Char → Bool) (s : List Char) : splitBy p s ≠ [] := by
  cases s with
  | nil => simp [splitBy]
  | cons c cs =>
    rw [splitBy]
    split_ifs
    · simp
    · cases splitBy p cs <;> simp

theorem splitBy_length (p : Char → Bool) (s : List Char) :
    (splitBy p s).length = s.countP p + 1 := by
  induction s with
  | nil => rfl
  | cons c cs ih =>
    rw [splitBy, List.countP_cons]
    split_ifs with hc
    · simp [List.length_cons, ih, hc]
    · have hc2 : (p c = true) = False := by simp [hc]
      obtain ⟨t, ts, ht⟩ := List.exists_cons_of_ne_nil (splitBy_ne_nil p cs)
      rw [ht]
      simp only [List.length_cons]
      have := ih
      rw [ht] at this
      simp only [List.length_cons] at this
      simp [hc2, this]

/-- C2 amended: well_structured is true iff the "."-split of the text has
more than 2 segments COUNTING EMPTY ONES — equivalently, the text contains at
least two "." characters — and the text does not begin with "Sorry". -/
theorem C2_well_structured_amended (s : List Char) :
    (analyze_content_quality s).well_structured =
      (decide (2 ≤ s.countP (fun c => c = '.')) && !(refusalMarker.isPrefixOf s)) := by
  have h : (analyze_content_quality s).well_structured =
      (decide (2 < (splitOnDot s).length) && !(refusalMarker.isPrefixOf s)) := rfl
  rw [h, splitOnDot, splitBy_length]
  have h2 : decide (2 < s.countP (fun c => c = '.') + 1)
      = decide (2 ≤ s.countP (fun c => c = '.')) :=
    decide_eq_decide.mpr (by omega)
  rw [h2]

/-! ### C1: the quality-score formula -/

/-- Modelled from the spec's words, for comparison with the source behavior:
the same itemized text score, but "capped at 10" BEFORE blending with the
itm component, as the claim states. -/
def quality_score_claimed (cm : ContentMetrics) (itm_score : ℚ) : ℚ :=
  pymin (pymin (text_score cm) 10 * (7/10) + (itm_score * 10) * (3/10)) 10

/-- A concrete successful answer hitting every scoring bonus at once:
24 words, 3 sentences, all five mention categories, language indicators,
specific details. Its raw text score is 11.5, above the claimed cap of 10. -/
def c1CexText : List Char :=
  ("The red dog and a man are running in the park. It is a good day. "
    ++ "They can see the text on the sign.").data

/-- Counterexample to C1: the source never caps the text score at 10.
On `c1CexText` with itm 0 the code yields 0.7 × 11.5 = 8.05, while the
claimed formula (inner cap at 10) yields 0.7 × 10 = 7. -/
theorem C1_quality_counterexample :
    text_score (analyze_content_quality c1CexText) = 23/2 ∧
    calculate_quality_score (analyze_content_quality c1CexText) 0 = 161/20 ∧
    quality_score_claimed (analyze_content_quality c1CexText) 0 = 7 ∧
    (161/20 : ℚ) ≠ 7 := by
  refine ⟨?_, ?_, ?_, by norm_num⟩ <;> with_unfolding_all decide

/-- C1 amended: for every successful result, quality_score equals
0.7 × text_score + 0.3 × (itm_score × 10) capped at 10, where text_score is
the UNCAPPED itemized sum: +2 for word_count in [20,200] / +1 for [10,20) /
+1.5 for above 200, +2 detailed, +2 well structured, +1.5 target language,
+1.5 specific details, +0.5 per true mention category. -/
theorem C1_quality_formula (r : ModelResponse) (itm : ℚ) (h : r.success = true) :
    (analyze_model_response r itm).quality_score =
      pymin
        (((if 20 ≤ (analyze_content_quality r.response).word_count ∧
              (analyze_content_quality r.response).word_count ≤ 200 then 2
           else if 10 ≤ (analyze_content_quality r.response).word_count ∧
              (analyze_content_quality r.response).word_count < 20 then 1
           else if 200 < (analyze_content_quality r.response).word_count then 3/2
           else 0)
          + (if (analyze_content_quality r.response).has_detailed_description then 2 else 0)
          + (if (analyze_content_quality r.response).well_structured then 2 else 0)
          + (if (analyze_content_quality r.response).uses_english then 3/2 else 0)
          + (if (analyze_content_quality r.response).has_specific_details then 3/2 else 0)
          + (((if (analyze_content_quality r.response).mentions_colors then 1 else 0)
              + (if (analyze_content_quality r.response).mentions_objects then 1 else 0)
              + (if (analyze_content_quality r.response).mentions_people then 1 else 0)
              + (if (analyze_content_quality r.response).mentions_text then 1 else 0)
              + (if (analyze_content_quality r.response).mentions_actions then 1 else 0) : ℕ) : ℚ)
            * (1/2)) * (7/10)
          + (itm * 10) * (3/10))
        10 := by
  rw [analyze_model_response, if_neg (by simp [h])]
  rfl

/-- Witness for C1 amended at a concrete successful input. -/
theorem C1_quality_formula_witness :
    (({ model_name := "llava", provider := "ollama", response := c1CexText,
        execution_time := 4, success := true, error := none } :
        ModelResponse).success = true) ∧
    (analyze_model_response
        { model_name := "llava", provider := "ollama", response := c1CexText,
          execution_time := 4, success := true, error := none } (1/2)).quality_score =
      pymin
        (((if 20 ≤ (analyze_content_quality c1CexText).word_count ∧
              (analyze_content_quality c1CexText).word_count ≤ 200 then 2
           else if 10 ≤ (analyze_content_quality c1CexText).word_count ∧
              (analyze_content_quality c1CexText).word_count < 20 then 1
           else if 200 < (analyze_content_quality c1CexText).word_count then 3/2
           else 0)
          + (if (analyze_content_quality c1CexText).has_detailed_description then 2 else 0)
          + (if (analyze_content_quality c1CexText).well_structured then 2 else 0)
          + (if (analyze_content_quality c1CexText).uses_english then 3/2 else 0)
          + (if (analyze_content_quality c1CexText).has_specific_details then 3/2 else 0)
          + (((if (analyze_content_quality c1CexText).mentions_colors then 1 else 0)
              + (if (analyze_content_quality c1CexText).mentions_objects then 1 else 0)
              + (if (analyze_content_quality c1CexText).mentions_people then 1 else 0)
              + (if (analyze_content_quality c1CexText).mentions_text then 1 else 0)
              + (if (analyze_content_quality c1CexText).mentions_actions then 1 else 0) : ℕ) : ℚ)
            * (1/2)) * (7/10)
          + ((1/2) * 10) * (3/10))
        10 :=
  ⟨rfl, C1_quality_formula _ (1/2) rfl⟩

/-! ### C8: monotonicity in the itm score -/

/-- C8: holding the text fixed, the quality score is monotone non-decreasing
in the itm score. -/
theorem C8_quality_monotone_itm (s : List Char) (a b : ℚ) (hab : a ≤ b) :
    calculate_quality_score (analyze_content_quality s) a ≤
      calculate_quality_score (analyze_content_quality s) b := by
  rw [calculate_quality_score, calculate_quality_score, pymin_eq_min, pymin_eq_min]
  exact min_le_min (by linarith) le_rfl

/-- Witness for C8 at a concrete text and itm pair. -/
theorem C8_quality_monotone_itm_witness :
    ((0 : ℚ) ≤ 1) ∧
    calculate_quality_score (analyze_content_quality "The red dog runs. Fast. Yes.".data) 0 ≤
      calculate_quality_score (analyze_content_quality "The red dog runs. Fast. Yes.".data) 1 :=
  ⟨by norm_num,
    C8_quality_monotone_itm "The red dog runs. Fast. Yes.".data 0 1 (by norm_num)⟩

/-! ### C7: score ranges -/

theorem text_score_nonneg (cm : ContentMetrics) : 0 ≤ text_score cm := by
  rw [text_score]
  have hv : (0:ℚ) ≤ (content_variety cm : ℚ) * (1/2) := by positivity
  split_ifs <;> linarith

theorem quality_score_bounds (cm : ContentMetrics) (itm : ℚ) (h0 : 0 ≤ itm) :
    0 ≤ calculate_quality_score cm itm ∧ calculate_quality_score cm itm ≤ 10 := by
  rw [calculate_quality_score, pymin_eq_min]
  have ht := text_score_nonneg cm
  exact ⟨le_min (by linarith) (by norm_num), min_le_right _ _⟩

theorem performance_score_bounds (t : ℚ) (s : Bool) :
    0 ≤ calculate_performance_score t s ∧ calculate_performance_score t s ≤ 10 := by
  rw [calculate_performance_score]
  split_ifs <;> norm_num

/-- C7: for any result and any itm score in [0,1] (and any non-negative
execution time), the quality score and the overall score land in [0,10]. -/
theorem C7_scores_in_range (r : ModelResponse) (itm : ℚ) (h0 : 0 ≤ itm)
    (h1 : itm ≤ 1) (ht : 0 ≤ r.execution_time) :
    0 ≤ (analyze_model_response r itm).quality_score ∧
    (analyze_model_response r itm).quality_score ≤ 10 ∧
    0 ≤ (analyze_model_response r itm).overall_score ∧
    (analyze_model_response r itm).overall_score ≤ 10 := by
  cases hs : r.success with
  | false =>
    rw [analyze_model_response, if_pos hs]
    norm_num
  | true =>
    have hq : (analyze_model_response r itm).quality_score =
        calculate_quality_score (analyze_content_quality r.response) itm := by
      rw [analyze_model_response, if_neg (by simp [hs])]
    have ho : (analyze_model_response r itm).overall_score =
        (if r.execution_time < 10 then
          calculate_quality_score (analyze_content_quality r.response) itm * (1/2)
            + calculate_performance_score r.execution_time r.success * (1/2)
        else if 60 < r.execution_time then
          calculate_quality_score (analyze_content_quality r.response) itm * (7/10)
            + calculate_performance_score r.execution_time r.success * (3/10)
        else
          calculate_quality_score (analyze_content_quality r.response) itm * (3/5)
            + calculate_performance_score r.execution_time r.success * (2/5)) := by
      rw [analyze_model_response, if_neg (by simp [hs])]
    obtain ⟨hq0, hq10⟩ := quality_score_bounds (analyze_content_quality r.response) itm h0
    obtain ⟨hp0, hp10⟩ := performance_score_bounds r.execution_time r.success
    rw [hq, ho]
    split_ifs <;> exact ⟨hq0, hq10, by linarith, by linarith⟩

/-- The spec's worked example: a successful 4-second answer describing a red
car and a walking man. -/
def sampleCar : ModelResponse :=
  { model_name := "llava", provider := "ollama",
    response := "The image shows a red car on the road near a man walking.".data,
    execution_time := 4, success := true, error := none }

/-- Witness for C7 at a concrete successful input (the spec's worked example:
itm 0.8, execution time 4s). -/
theorem C7_scores_in_range_witness :
    ((0:ℚ) ≤ 4/5 ∧ (4/5:ℚ) ≤ 1 ∧ (0:ℚ) ≤ sampleCar.execution_time) ∧
    (0 ≤ (analyze_model_response sampleCar (4/5)).quality_score ∧
      (analyze_model_response sampleCar (4/5)).quality_score ≤ 10 ∧
      0 ≤ (analyze_model_response sampleCar (4/5)).overall_score ∧
      (analyze_model_response sampleCar (4/5)).overall_score ≤ 10) :=
  ⟨⟨by norm_num, by norm_num, by decide⟩,
    C7_scores_in_range sampleCar (4/5) (by norm_num) (by norm_num) (by decide)⟩

/-! ### C4 and C5: category winners and tie-breaking -/

theorem compare_of_success (responses : List ModelResponse)
    (itm_scores : List (String × ℚ)) (x : ModelResponse) (xs : List ModelResponse)
    (hx : responses = x :: xs) (s : ModelMetrics) (ss : List ModelMetrics)
    (hss : successfulMetrics responses itm_scores = s :: ss) :
    compare_models_with_itm responses itm_scores = some
      { total_models := responses.length
        fastest_model := minNameBy (fun m => m.execution_time) (successfulMetrics responses itm_scores)
        slowest_model := maxNameBy (fun m => m.execution_time) (allMetrics responses itm_scores)
        most_detailed_model := maxNameBy (fun m => m.word_count) (successfulMetrics responses itm_scores)
        highest_quality_model := maxNameBy (fun m => m.quality_score) (successfulMetrics responses itm_scores)
        winner := maxNameBy (fun m => m.overall_score) (successfulMetrics responses itm_scores)
        metrics_by_model := modelMetricsList responses itm_scores } := by
  rw [compare_models_with_itm, if_neg (by rw [hx]; simp), if_neg (by rw [hss]; simp)]

theorem successfulMetrics_ne_nil_of_success (responses : List ModelResponse)
    (itm_scores : List (String × ℚ))
    (hnd : (responses.map ModelResponse.model_name).Nodup) (r : ModelResponse)
    (hr : r ∈ responses) (hrs : r.success = true) :
    successfulMetrics responses itm_scores ≠ [] := by
  apply List.ne_nil_of_mem
    (a := analyze_model_response r (dictGet itm_scores r.model_name))
  rw [successfulMetrics, List.mem_filter]
  constructor
  · rw [allMetrics, modelMetricsList_eq_map responses itm_scores hnd, List.map_map]
    exact List.mem_map.mpr ⟨r, hr, rfl⟩
  · rw [decide_eq_true_eq, analyze_model_response_success_rate_of_success r _ hrs]
    norm_num

/-- C4: with at least one success (and distinct model names, as in any real
run), the fastest winner minimizes execution time among successes only, the
slowest maximizes it over ALL results, and the detail/quality/overall winners
maximize word count, quality score and overall score among successes. -/
theorem C4_category_winners (responses : List ModelResponse)
    (itm_scores : List (String × ℚ)) (hne : responses ≠ [])
    (hnd : (responses.map ModelResponse.model_name).Nodup)
    (hs : ∃ r ∈ responses, r.success = true) :
    ∃ c, compare_models_with_itm responses itm_scores = some c ∧
      (∃ m ∈ successfulMetrics responses itm_scores, c.fastest_model = m.model_name ∧
        ∀ m2 ∈ successfulMetrics responses itm_scores, m.execution_time ≤ m2.execution_time) ∧
      (∃ m ∈ allMetrics responses itm_scores, c.slowest_model = m.model_name ∧
        ∀ m2 ∈ allMetrics responses itm_scores, m2.execution_time ≤ m.execution_time) ∧
      (∃ m ∈ successfulMetrics responses itm_scores, c.most_detailed_model = m.model_name ∧
        ∀ m2 ∈ successfulMetrics responses itm_scores, m2.word_count ≤ m.word_count) ∧
      (∃ m ∈ successfulMetrics responses itm_scores, c.highest_quality_model = m.model_name ∧
        ∀ m2 ∈ successfulMetrics responses itm_scores, m2.quality_score ≤ m.quality_score) ∧
      (∃ m ∈ successfulMetrics responses itm_scores, c.winner = m.model_name ∧
        ∀ m2 ∈ successfulMetrics responses itm_scores, m2.overall_score ≤ m.overall_score) := by
  obtain ⟨r, hr, hrs⟩ := hs
  have hsne := successfulMetrics_ne_nil_of_success responses itm_scores hnd r hr hrs
  obtain ⟨s, ss, hss⟩ := List.exists_cons_of_ne_nil hsne
  obtain ⟨x, xs, hx⟩ := List.exists_cons_of_ne_nil hne
  have hall : allMetrics responses itm_scores ≠ [] := by
    have hmem : s ∈ successfulMetrics responses itm_scores := by
      rw [hss]
      exact List.mem_cons_self s ss
    rw [successfulMetrics] at hmem
    exact List.ne_nil_of_mem (List.mem_of_mem_filter hmem)
  obtain ⟨a, as, has⟩ := List.exists_cons_of_ne_nil hall
  refine ⟨_, compare_of_success responses itm_scores x xs hx s ss hss,
    ?_, ?_, ?_, ?_, ?_⟩
  · refine ⟨argminBy (fun m => m.execution_time) s ss, ?_, ?_, ?_⟩
    · rw [hss]
      exact argminBy_mem _ s ss
    · show minNameBy (fun m => m.execution_time) (successfulMetrics responses itm_scores) = _
      rw [hss]
      rfl
    · intro m2 hm2
      rw [hss] at hm2
      exact argminBy_le _ s ss m2 hm2
  · refine ⟨argmaxBy (fun m => m.execution_time) a as, ?_, ?_, ?_⟩
    · rw [has]
      exact argmaxBy_mem _ a as
    · show maxNameBy (fun m => m.execution_time) (allMetrics responses itm_scores) = _
      rw [has]
      rfl
    · intro m2 hm2
      rw [has] at hm2
      exact argmaxBy_ge _ a as m2 hm2
  · refine ⟨argmaxBy (fun m => (m.word_count : ℕ)) s ss, ?_, ?_, ?_⟩
    · rw [hss]
      exact argmaxBy_mem _ s ss
    · show maxNameBy (fun m => m.word_count) (successfulMetrics responses itm_scores) = _
      rw [hss]
      rfl
    · intro m2 hm2
      rw [hss] at hm2
      exact argmaxBy_ge _ s ss m2 hm2
  · refine ⟨argmaxBy (fun m => m.quality_score) s ss, ?_, ?_, ?_⟩
    · rw [hss]
      exact argmaxBy_mem _ s ss
    · show maxNameBy (fun m => m.quality_score) (successfulMetrics responses itm_scores) = _
      rw [hss]
      rfl
    · intro m2 hm2
      rw [hss] at hm2
      exact argmaxBy_ge _ s ss m2 hm2
  · refine ⟨argmaxBy (fun m => m.overall_score) s ss, ?_, ?_, ?_⟩
    · rw [hss]
      exact argmaxBy_mem _ s ss
    · show maxNameBy (fun m => m.overall_score) (successfulMetrics responses itm_scores) = _
      rw [hss]
      rfl
    · intro m2 hm2
      rw [hss] at hm2
      exact argmaxBy_ge _ s ss m2 hm2

/-- A fast successful sample answer. -/
def sampleFast : ModelResponse :=
  { model_name := "fast", provider := "ollama",
    response := "The red dog runs. Quick. Yes.".data,
    execution_time := 1, success := true, error := none }

/-- A slow failed sample answer. -/
def sampleSlow : ModelResponse :=
  { model_name := "slow", provider := "gemini", response := [],
    execution_time := 90, success := false, error := some "timeout" }

/-- Witness for C4 on a two-model run with one success and one slow failure. -/
theorem C4_category_winners_witness :
    (([sampleFast, sampleSlow] ≠ []) ∧
      (([sampleFast, sampleSlow].map ModelResponse.model_name).Nodup) ∧
      (∃ r ∈ [sampleFast, sampleSlow], r.success = true)) ∧
    (∃ c, compare_models_with_itm [sampleFast, sampleSlow] [("fast", 1/2)] = some c ∧
      (∃ m ∈ successfulMetrics [sampleFast, sampleSlow] [("fast", 1/2)],
        c.fastest_model = m.model_name ∧
        ∀ m2 ∈ successfulMetrics [sampleFast, sampleSlow] [("fast", 1/2)],
          m.execution_time ≤ m2.execution_time) ∧
      (∃ m ∈ allMetrics [sampleFast, sampleSlow] [("fast", 1/2)],
        c.slowest_model = m.model_name ∧
        ∀ m2 ∈ allMetrics [sampleFast, sampleSlow] [("fast", 1/2)],
          m2.execution_time ≤ m.execution_time) ∧
      (∃ m ∈ successfulMetrics [sampleFast, sampleSlow] [("fast", 1/2)],
        c.most_detailed_model = m.model_name ∧
        ∀ m2 ∈ successfulMetrics [sampleFast, sampleSlow] [("fast", 1/2)],
          m2.word_count ≤ m.word_count) ∧
      (∃ m ∈ successfulMetrics [sampleFast, sampleSlow] [("fast", 1/2)],
        c.highest_quality_model = m.model_name ∧
        ∀ m2 ∈ successfulMetrics [sampleFast, sampleSlow] [("fast", 1/2)],
          m2.quality_score ≤ m.quality_score) ∧
      (∃ m ∈ successfulMetrics [sampleFast, sampleSlow] [("fast", 1/2)],
        c.winner = m.model_name ∧
        ∀ m2 ∈ successfulMetrics [sampleFast, sampleSlow] [("fast", 1/2)],
          m2.overall_score ≤ m.overall_score)) :=
  ⟨⟨by simp, by decide, by decide⟩,
    C4_category_winners [sampleFast, sampleSlow] [("fast", 1/2)]
      (by simp) (by decide) (by decide)⟩

/-- C5: when the maximal overall score among successes is attained by `m` and
everything listed before `m` scores strictly less (so in particular when two
or more successes tie at the maximum and `m` is the first of them), the
winner is `m` — first-encountered order breaks ties. -/
theorem C5_winner_tie_first_occurrence (responses : List ModelResponse)
    (itm_scores : List (String × ℚ)) (hne : responses ≠ [])
    (l₁ l₂ : List ModelMetrics) (m : ModelMetrics)
    (hsplit : successfulMetrics responses itm_scores = l₁ ++ m :: l₂)
    (hmax : ∀ m2 ∈ successfulMetrics responses itm_scores,
      m2.overall_score ≤ m.overall_score)
    (hfirst : ∀ m2 ∈ l₁, m2.overall_score < m.overall_score) :
    ∃ c, compare_models_with_itm responses itm_scores = some c ∧
      c.winner = m.model_name := by
  have hsne : successfulMetrics responses itm_scores ≠ [] := by
    rw [hsplit]
    simp
  obtain ⟨s, ss, hss⟩ := List.exists_cons_of_ne_nil hsne
  obtain ⟨x, xs, hx⟩ := List.exists_cons_of_ne_nil hne
  refine ⟨_, compare_of_success responses itm_scores x xs hx s ss hss, ?_⟩
  show maxNameBy (fun m2 => m2.overall_score) (successfulMetrics responses itm_scores)
    = m.model_name
  rw [hss]
  show (argmaxBy (fun m2 => m2.overall_score) s ss).model_name = m.model_name
  rw [argmaxBy_first (fun m2 => m2.overall_score) s ss l₁ l₂ m
    (by rw [← hss, hsplit])
    (fun y hy => hmax y (by rw [hss]; exact hy))
    hfirst]

/-- Two successful samples with identical content and timing: a genuine tie. -/
def tieA : ModelResponse :=
  { model_name := "a", provider := "ollama", response := "z".data,
    execution_time := 1, success := true, error := none }

/-- Second of the two tied samples, listed after `tieA`. -/
def tieB : ModelResponse :=
  { model_name := "b", provider := "ollama", response := "z".data,
    execution_time := 1, success := true, error := none }

/-- Witness for C5 on two models tied at the same maximal overall score:
the first-listed one wins. -/
theorem C5_winner_tie_first_occurrence_witness :
    (([tieA, tieB] ≠ []) ∧
      (successfulMetrics [tieA, tieB] [] =
        [] ++ analyze_model_response tieA 0 :: [analyze_model_response tieB 0]) ∧
      (∀ m2 ∈ successfulMetrics [tieA, tieB] [],
        m2.overall_score ≤ (analyze_model_response tieA 0).overall_score) ∧
      (∀ m2 ∈ ([] : List ModelMetrics),
        m2.overall_score < (analyze_model_response tieA 0).overall_score)) ∧
    (∃ c, compare_models_with_itm [tieA, tieB] [] = some c ∧
      c.winner = (analyze_model_response tieA 0).model_name) :=
  ⟨⟨by simp, by with_unfolding_all decide, by with_unfolding_all decide, by simp⟩,
    C5_winner_tie_first_occurrence [tieA, tieB] [] (by simp) []
      [analyze_model_response tieB 0] (analyze_model_response tieA 0)
      (by with_unfolding_all decide) (by with_unfolding_all decide) (by simp)⟩

end PSMC
